import Mathlib

/-!
Verification of the PePPeR backend core: the paper store
(`backend/app/services/data_store.py`), its JSON persistence, the list/count
filter semantics, the LLM analysis post-processing
(`backend/app/services/llm_service.py`), the chat routes
(`backend/app/api/routes/chat.py`), the process route
(`backend/app/api/routes/papers.py`) and the scheduler batch operations
(`backend/app/utils/scheduler.py`), shallowly embedded in Lean.

Conventions of the embedding:
* Python `dict[str, Paper]` is an association list in insertion order
  (Python dicts preserve insertion order; `add` appends, in-place field
  updates keep the position).
* Python exceptions are `Option`/`Except` failures.
* `datetime` values are modelled as a record of bounded numeric fields;
  the bounds are those imposed by the fixed-width ISO-8601 rendering used
  by the persistence layer (real `datetime` values satisfy tighter bounds).
* JSON trees are modelled structurally (`json.dump`/`json.load` of a tree
  of dict/list/str/num/bool/None round-trips structurally); numeric JSON
  leaves are exact rationals.
-/

namespace Pepper

/-! ## Datetimes and their ISO-8601 rendering -/

/-- A `datetime.datetime` value.  Field bounds are the ones forced by the
fixed-width ISO rendering (`YYYY-MM-DDTHH:MM:SS[.ffffff]`); every real
Python datetime (year ≤ 9999, month ≤ 12, …) satisfies them. -/
structure DateTime where
  year : Fin 10000
  month : Fin 100
  day : Fin 100
  hour : Fin 100
  minute : Fin 100
  second : Fin 100
  usec : Fin 1000000
deriving DecidableEq, Repr

/-- Mixed-radix key; on DateTimes the induced order is exactly the
lexicographic component order used by Python `datetime` comparison. -/
def DateTime.key (d : DateTime) : Nat :=
  (((((d.year.val * 100 + d.month.val) * 100 + d.day.val) * 100 + d.hour.val) * 100
      + d.minute.val) * 100 + d.second.val) * 1000000 + d.usec.val

/-- Fixed-width decimal rendering of `n` (most significant digit first),
as produced by the zero-padding in `datetime.isoformat()`. -/
def toChars : Nat → Nat → List Char
  | 0, _ => []
  | w + 1, n => toChars w (n / 10) ++ [Char.ofNat (48 + n % 10)]

/-- Reads one decimal digit. -/
def digitVal? (c : Char) : Option Nat :=
  if 48 ≤ c.toNat ∧ c.toNat ≤ 57 then some (c.toNat - 48) else none

/-- Reads exactly `w` decimal digits, accumulating into `acc`. -/
def readFixed : Nat → Nat → List Char → Option (Nat × List Char)
  | 0, acc, cs => some (acc, cs)
  | _ + 1, _, [] => none
  | w + 1, acc, c :: cs =>
    match digitVal? c with
    | some d => readFixed w (acc * 10 + d) cs
    | none => none

/-- Consumes one expected separator character. -/
def expectChar (ch : Char) : List Char → Option (List Char)
  | c :: cs => if c = ch then some cs else none
  | [] => none

/-- Bounds check performed by `datetime` construction (our loose variant). -/
def mkDateTime (y mo da h mi s us : Nat) : Option DateTime :=
  if hb : y < 10000 ∧ mo < 100 ∧ da < 100 ∧ h < 100 ∧ mi < 100 ∧ s < 100
      ∧ us < 1000000 then
    some ⟨⟨y, hb.1⟩, ⟨mo, hb.2.1⟩, ⟨da, hb.2.2.1⟩, ⟨h, hb.2.2.2.1⟩,
      ⟨mi, hb.2.2.2.2.1⟩, ⟨s, hb.2.2.2.2.2.1⟩, ⟨us, hb.2.2.2.2.2.2⟩⟩
  else none

/-- `datetime.fromisoformat` on the subset of shapes this system produces:
`YYYY-MM-DD`, optionally followed by `THH:MM:SS` and `.ffffff`. -/
def parseIsoChars (cs : List Char) : Option DateTime := do
  let (y, cs) ← readFixed 4 0 cs
  let cs ← expectChar '-' cs
  let (mo, cs) ← readFixed 2 0 cs
  let cs ← expectChar '-' cs
  let (da, cs) ← readFixed 2 0 cs
  match cs with
  | [] => mkDateTime y mo da 0 0 0 0
  | 'T' :: cs => do
    let (h, cs) ← readFixed 2 0 cs
    let cs ← expectChar ':' cs
    let (mi, cs) ← readFixed 2 0 cs
    let cs ← expectChar ':' cs
    let (s, cs) ← readFixed 2 0 cs
    match cs with
    | [] => mkDateTime y mo da h mi s 0
    | '.' :: cs => do
      let (us, cs) ← readFixed 6 0 cs
      match cs with
      | [] => mkDateTime y mo da h mi s us
      | _ => none
    | _ => none
  | _ => none

/-- The character sequence of `datetime.isoformat()`: seconds always
rendered, microseconds only when nonzero (this is what
pydantic `model_dump(mode="json")` emits for a `datetime`). -/
def dtToIsoChars (d : DateTime) : List Char :=
  toChars 4 d.year.val ++ '-' :: toChars 2 d.month.val ++ '-' :: toChars 2 d.day.val
    ++ 'T' :: toChars 2 d.hour.val ++ ':' :: toChars 2 d.minute.val
    ++ ':' :: toChars 2 d.second.val
    ++ (if d.usec.val = 0 then [] else '.' :: toChars 6 d.usec.val)

def dtToIso (d : DateTime) : String := String.mk (dtToIsoChars d)

def parseIsoDT (s : String) : Option DateTime := parseIsoChars s.data

/-! ## JSON trees

`backend/app/services/data_store.py` persists the whole store with
`json.dump({id: paper.model_dump(mode="json")})` and reads it back with
`json.load` + `Paper.model_validate`.  We model the persisted file as the
structural JSON tree (the textual `dump`/`load` pair is the identity on such
trees; numbers are kept exact). -/

inductive JVal where
  | null : JVal
  | bool (b : Bool) : JVal
  | num (q : ℚ) : JVal
  | str (s : String) : JVal
  | arr (items : List JVal) : JVal
  | obj (fields : List (String × JVal)) : JVal
deriving Repr

/-! ## Data model (`backend/app/models/paper.py`) -/

structure Author where
  name : String
  arxiv_id : Option String
deriving DecidableEq, Repr

structure PaperMetadata where
  arxiv_id : String
  title : String
  authors : List Author
  abstract : String
  published_date : DateTime
  updated_date : Option DateTime
  pdf_url : String
  primary_category : String
  categories : List String
  comment : Option String
  journal_ref : Option String
  doi : Option String
deriving DecidableEq, Repr

structure AIAnalysis where
  summary : String
  key_findings : List String
  methodology : Option String
  strengths : List String
  limitations : List String
  relevance_score : Option ℚ
  generated_at : DateTime
deriving DecidableEq, Repr

structure ChatMessage where
  role : String
  content : String
  timestamp : DateTime
deriving DecidableEq, Repr

structure Paper where
  metadata : PaperMetadata
  pdf_path : Option String
  extracted_text : Option String
  ai_analysis : Option AIAnalysis
  chat_history : List ChatMessage
  processed : Bool
  created_at : DateTime
  updated_at : Option DateTime
deriving DecidableEq, Repr

/-- `Paper(metadata=metadata)`: every other field takes its pydantic
default (`created_at` defaults to `datetime.utcnow()`, passed as `now`). -/
def newPaper (m : PaperMetadata) (now : DateTime) : Paper :=
  { metadata := m, pdf_path := none, extracted_text := none, ai_analysis := none,
    chat_history := [], processed := false, created_at := now, updated_at := none }

/-! ## Serialization (pydantic `model_dump(mode="json")`) -/

def jStrOpt : Option String → JVal
  | none => .null
  | some s => .str s

def jDT (d : DateTime) : JVal := .str (dtToIso d)

def jDTOpt : Option DateTime → JVal
  | none => .null
  | some d => jDT d

def jNumOpt : Option ℚ → JVal
  | none => .null
  | some q => .num q

def jStrList (l : List String) : JVal := .arr (l.map .str)

def Author.toJson (a : Author) : JVal :=
  .obj [("name", .str a.name), ("arxiv_id", jStrOpt a.arxiv_id)]

def PaperMetadata.toJson (m : PaperMetadata) : JVal :=
  .obj [("arxiv_id", .str m.arxiv_id), ("title", .str m.title),
    ("authors", .arr (m.authors.map Author.toJson)), ("abstract", .str m.abstract),
    ("published_date", jDT m.published_date), ("updated_date", jDTOpt m.updated_date),
    ("pdf_url", .str m.pdf_url), ("primary_category", .str m.primary_category),
    ("categories", jStrList m.categories), ("comment", jStrOpt m.comment),
    ("journal_ref", jStrOpt m.journal_ref), ("doi", jStrOpt m.doi)]

def AIAnalysis.toJson (a : AIAnalysis) : JVal :=
  .obj [("summary", .str a.summary), ("key_findings", jStrList a.key_findings),
    ("methodology", jStrOpt a.methodology), ("strengths", jStrList a.strengths),
    ("limitations", jStrList a.limitations),
    ("relevance_score", jNumOpt a.relevance_score), ("generated_at", jDT a.generated_at)]

def ChatMessage.toJson (c : ChatMessage) : JVal :=
  .obj [("role", .str c.role), ("content", .str c.content), ("timestamp", jDT c.timestamp)]

def Paper.toJson (p : Paper) : JVal :=
  .obj [("metadata", p.metadata.toJson), ("pdf_path", jStrOpt p.pdf_path),
    ("extracted_text", jStrOpt p.extracted_text),
    ("ai_analysis", match p.ai_analysis with | none => .null | some a => a.toJson),
    ("chat_history", .arr (p.chat_history.map ChatMessage.toJson)),
    ("processed", .bool p.processed), ("created_at", jDT p.created_at),
    ("updated_at", jDTOpt p.updated_at)]

/-! ## Validation (pydantic `model_validate` on dumped records) -/

def jGet (v : JVal) (k : String) : Option JVal :=
  match v with
  | .obj fs => (fs.find? (fun f => f.1 = k)).map Prod.snd
  | _ => none

def asStr : JVal → Option String
  | .str s => some s
  | _ => none

def asOptStr : JVal → Option (Option String)
  | .null => some none
  | .str s => some (some s)
  | _ => none

def asBool : JVal → Option Bool
  | .bool b => some b
  | _ => none

def asOptNum : JVal → Option (Option ℚ)
  | .null => some none
  | .num q => some (some q)
  | _ => none

def asDT : JVal → Option DateTime
  | .str s => parseIsoDT s
  | _ => none

def asOptDT : JVal → Option (Option DateTime)
  | .null => some none
  | .str s => (parseIsoDT s).map some
  | _ => none

/-- Element-wise validation of a JSON array (pydantic validates each
element; the first bad element fails the whole field). -/
def decodeList {α : Type} (g : JVal → Option α) : List JVal → Option (List α)
  | [] => some []
  | v :: vs =>
    match g v with
    | some a => (decodeList g vs).map (fun tl => a :: tl)
    | none => none

def asStrList : JVal → Option (List String)
  | .arr items => decodeList asStr items
  | _ => none

def Author.fromJson? (v : JVal) : Option Author := do
  let name ← jGet v "name" >>= asStr
  let aid ← jGet v "arxiv_id" >>= asOptStr
  some ⟨name, aid⟩

def PaperMetadata.fromJson? (v : JVal) : Option PaperMetadata := do
  let arxiv_id ← jGet v "arxiv_id" >>= asStr
  let title ← jGet v "title" >>= asStr
  let authorsJ ← jGet v "authors"
  let authors ← match authorsJ with
    | .arr items => decodeList Author.fromJson? items
    | _ => none
  let abstract ← jGet v "abstract" >>= asStr
  let published_date ← jGet v "published_date" >>= asDT
  let updated_date ← jGet v "updated_date" >>= asOptDT
  let pdf_url ← jGet v "pdf_url" >>= asStr
  let primary_category ← jGet v "primary_category" >>= asStr
  let categories ← jGet v "categories" >>= asStrList
  let comment ← jGet v "comment" >>= asOptStr
  let journal_ref ← jGet v "journal_ref" >>= asOptStr
  let doi ← jGet v "doi" >>= asOptStr
  some ⟨arxiv_id, title, authors, abstract, published_date, updated_date, pdf_url,
    primary_category, categories, comment, journal_ref, doi⟩

def AIAnalysis.fromJson? (v : JVal) : Option AIAnalysis := do
  let summary ← jGet v "summary" >>= asStr
  let key_findings ← jGet v "key_findings" >>= asStrList
  let methodology ← jGet v "methodology" >>= asOptStr
  let strengths ← jGet v "strengths" >>= asStrList
  let limitations ← jGet v "limitations" >>= asStrList
  let relevance_score ← jGet v "relevance_score" >>= asOptNum
  let generated_at ← jGet v "generated_at" >>= asDT
  some ⟨summary, key_findings, methodology, strengths, limitations, relevance_score,
    generated_at⟩

def ChatMessage.fromJson? (v : JVal) : Option ChatMessage := do
  let role ← jGet v "role" >>= asStr
  let content ← jGet v "content" >>= asStr
  let timestamp ← jGet v "timestamp" >>= asDT
  some ⟨role, content, timestamp⟩

def Paper.fromJson? (v : JVal) : Option Paper := do
  let metaJ ← jGet v "metadata"
  let metadata ← PaperMetadata.fromJson? metaJ
  let pdf_path ← jGet v "pdf_path" >>= asOptStr
  let extracted_text ← jGet v "extracted_text" >>= asOptStr
  let aiJ ← jGet v "ai_analysis"
  let ai_analysis ← match aiJ with
    | .null => some none
    | a => (AIAnalysis.fromJson? a).map some
  let chatJ ← jGet v "chat_history"
  let chat_history ← match chatJ with
    | .arr items => decodeList ChatMessage.fromJson? items
    | _ => none
  let processed ← jGet v "processed" >>= asBool
  let created_at ← jGet v "created_at" >>= asDT
  let updated_at ← jGet v "updated_at" >>= asOptDT
  some ⟨metadata, pdf_path, extracted_text, ai_analysis, chat_history, processed,
    created_at, updated_at⟩

/-! ## Python-semantics helpers -/

/-- Truthiness of `Optional[str]` (`if x:`): `None` and `""` are falsy. -/
def pyTruthyStr : Option String → Bool
  | none => false
  | some s => !(s = "")

/-- Python code-point slicing/truncation `s[:n]`. -/
def pyTake (s : String) (n : Nat) : String := String.mk (s.data.take n)

/-- Python `s.lower()` (ASCII case folding suffices for this system). -/
def pyLower (s : String) : String := String.mk (s.data.map Char.toLower)

/-- `needle in hay` on character lists. -/
def charsIn : List Char → List Char → Bool
  | needle, [] => needle.isEmpty
  | needle, c :: rest => needle.isPrefixOf (c :: rest) || charsIn needle rest

/-- Python substring test `needle in hay`. -/
def pyIn (needle hay : String) : Bool := charsIn needle.data hay.data

/-- One step per character consumed, so `hay.length` fuel always
suffices; structural recursion on the fuel keeps the function
kernel-computable. -/
def pySplitAux (sep : List Char) : Nat → List Char → List Char → List (List Char)
  | _, [], acc => [acc.reverse]
  | 0, hay, acc => [acc.reverse ++ hay]
  | fuel + 1, c :: rest, acc =>
    if sep.isPrefixOf (c :: rest) then
      acc.reverse :: pySplitAux sep fuel ((c :: rest).drop sep.length) []
    else pySplitAux sep fuel rest (c :: acc)

/-- Python `s.split(sep)` for a non-empty separator: split on every
leftmost non-overlapping occurrence. -/
def pySplit (s sep : String) : List String :=
  (pySplitAux sep.data (s.data.length + 1) s.data []).map String.mk

/-- Python slice `l[a:b]` for the non-negative indices this system uses. -/
def pySlice (l : List Paper) (a b : Nat) : List Paper := (l.drop a).take (b - a)

/-! ## The data store (`backend/app/services/data_store.py`)

The store state is the in-memory cache (`self._papers_cache`, an
insertion-ordered dict) together with the persisted file
(`self.papers_file`), modelled as the JSON tree the file contains. -/

structure DataStore where
  papers_cache : List (String × Paper)
  papers_file : List (String × JVal)
deriving Repr

/-- `arxiv_id in self._papers_cache`. -/
def dictContains (cache : List (String × Paper)) (k : String) : Bool :=
  cache.any (fun kv => kv.1 = k)

/-- `self._papers_cache.get(arxiv_id)`. -/
def dictGet (cache : List (String × Paper)) (k : String) : Option Paper :=
  (cache.find? (fun kv => kv.1 = k)).map Prod.snd

/-- In-place mutation of the paper stored under `k` (a Python attribute
assignment on the cached object; dict order is unchanged). -/
def dictUpdate (cache : List (String × Paper)) (k : String) (g : Paper → Paper) :
    List (String × Paper) :=
  cache.map (fun kv => if kv.1 = k then (kv.1, g kv.2) else kv)

/-- `DataStore._save_cache`: serialize the entire cache and rewrite the
whole file. -/
def saveCache (s : DataStore) : DataStore :=
  { s with papers_file := s.papers_cache.map (fun kv => (kv.1, kv.2.toJson)) }

/-- The loop body of `DataStore._load_cache`: validate records one by one,
inserting each; a record whose shape fails validation raises out of the
loop (`none`). -/
def loadLoop : List (String × JVal) → Option (List (String × Paper))
  | [] => some []
  | (k, v) :: rest =>
    match Paper.fromJson? v with
    | some p => (loadLoop rest).map (fun tail => (k, p) :: tail)
    | none => none

/-- `DataStore._load_cache`: the whole loop runs inside one `try`; on any
failure the `except` clause resets the cache to `\x7b\x7d` (empty). -/
def loadCache (file : List (String × JVal)) : List (String × Paper) :=
  (loadLoop file).getD []

/-- `DataStore.reload`: clear the cache and re-read the backing file. -/
def reload (s : DataStore) : DataStore :=
  { s with papers_cache := loadCache s.papers_file }

/-- `DataStore.add_paper`. -/
def addPaper (s : DataStore) (paper : Paper) : Bool × DataStore :=
  let arxiv_id := paper.metadata.arxiv_id
  if dictContains s.papers_cache arxiv_id then
    (false, s)
  else
    (true, saveCache { s with papers_cache := s.papers_cache ++ [(arxiv_id, paper)] })

/-- `DataStore.get_paper`. -/
def getPaper (s : DataStore) (arxiv_id : String) : Option Paper :=
  dictGet s.papers_cache arxiv_id

/-- `DataStore.set_extracted_text` (stamps `updated_at = utcnow()`). -/
def setExtractedText (s : DataStore) (arxiv_id text : String) (now : DateTime) :
    Bool × DataStore :=
  match dictGet s.papers_cache arxiv_id with
  | none => (false, s)
  | some _ =>
    let cache := dictUpdate s.papers_cache arxiv_id
      (fun p => { p with extracted_text := some text, updated_at := some now })
    (true, saveCache { s with papers_cache := cache })

/-- `DataStore.set_ai_analysis`. -/
def setAiAnalysis (s : DataStore) (arxiv_id : String) (analysis : AIAnalysis)
    (now : DateTime) : Bool × DataStore :=
  match dictGet s.papers_cache arxiv_id with
  | none => (false, s)
  | some _ =>
    let cache := dictUpdate s.papers_cache arxiv_id
      (fun p => { p with ai_analysis := some analysis, updated_at := some now })
    (true, saveCache { s with papers_cache := cache })

/-- `DataStore.set_processed`. -/
def setProcessed (s : DataStore) (arxiv_id : String) (processed : Bool)
    (now : DateTime) : Bool × DataStore :=
  match dictGet s.papers_cache arxiv_id with
  | none => (false, s)
  | some _ =>
    let cache := dictUpdate s.papers_cache arxiv_id
      (fun p => { p with processed := processed, updated_at := some now })
    (true, saveCache { s with papers_cache := cache })

/-- `DataStore.add_chat_message`. -/
def addChatMessage (s : DataStore) (arxiv_id : String) (msg : ChatMessage)
    (now : DateTime) : Bool × DataStore :=
  match dictGet s.papers_cache arxiv_id with
  | none => (false, s)
  | some _ =>
    let cache := dictUpdate s.papers_cache arxiv_id
      (fun p =>
        { p with
            chat_history := p.chat_history ++ [msg]
            updated_at := some now })
    (true, saveCache { s with papers_cache := cache })

/-! ### `DataStore.list_papers` and `DataStore.count_papers` -/

/-- The filter block of `list_papers` (lines 141-163), in source order.
The date arguments are the raw query strings; `datetime.fromisoformat`
raising on a malformed string is the `none` outcome.  `if category:` and
`if search:` use Python truthiness (absent or empty string skips the
filter); `if processed is not None:` does not. -/
def filteredPapers (cache : List (String × Paper)) (category : Option String)
    (date_from date_to : Option String) (processed : Option Bool)
    (search : Option String) : Option (List Paper) := do
  let papers : List Paper := cache.map Prod.snd
  let papers := if pyTruthyStr category then
      papers.filter (fun p => p.metadata.primary_category = category.getD "")
    else papers
  let papers ← if pyTruthyStr date_from then do
      let from_dt ← parseIsoDT (date_from.getD "")
      pure (papers.filter (fun p => from_dt.key ≤ p.metadata.published_date.key))
    else pure papers
  let papers ← if pyTruthyStr date_to then do
      let to_dt ← parseIsoDT (date_to.getD "")
      pure (papers.filter (fun p => p.metadata.published_date.key ≤ to_dt.key))
    else pure papers
  let papers := match processed with
    | some b => papers.filter (fun p => p.processed = b)
    | none => papers
  let papers := if pyTruthyStr search then
      let sl := pyLower (search.getD "")
      papers.filter (fun p =>
        pyIn sl (pyLower p.metadata.title) || pyIn sl (pyLower p.metadata.abstract))
    else papers
  pure papers

/-- The comparison of `papers.sort(key=lambda p: p.metadata.published_date,
reverse=True)`: `a` may precede `b` when `a`'s published date is the later
(or equal) one. -/
def dateDescRel (a b : Paper) : Prop :=
  b.metadata.published_date.key ≤ a.metadata.published_date.key

instance : DecidableRel dateDescRel := fun a b =>
  Nat.decLe b.metadata.published_date.key a.metadata.published_date.key

/-- `papers.sort(key=lambda p: p.metadata.published_date, reverse=True)`:
a stable sort, newest first (ties keep list order, exactly as in Python).
A stable sort's output is uniquely determined by the key order and
stability, so the structurally recursive stable `insertionSort` computes
the same list as CPython's stable sort. -/
def sortPapers (papers : List Paper) : List Paper :=
  papers.insertionSort dateDescRel

/-- `DataStore.list_papers`: filter, sort by published date descending,
then paginate with `papers[offset : offset + limit]`. -/
def listPapers (cache : List (String × Paper)) (category : Option String)
    (date_from date_to : Option String) (processed : Option Bool)
    (search : Option String) (limit offset : Nat) : Option (List Paper) := do
  let papers ← filteredPapers cache category date_from date_to processed search
  pure (pySlice (sortPapers papers) offset (offset + limit))

/-- `DataStore.count_papers`: only the category and processed filters
exist here (no date-range, search, sort or pagination). -/
def countPapers (cache : List (String × Paper)) (category : Option String)
    (processed : Option Bool) : Nat :=
  let papers : List Paper := cache.map Prod.snd
  let papers : List Paper := if pyTruthyStr category then
      papers.filter (fun p => p.metadata.primary_category = category.getD "")
    else papers
  let papers : List Paper := match processed with
    | some b => papers.filter (fun p => p.processed = b)
    | none => papers
  papers.length

/-! ## LLM service (`backend/app/services/llm_service.py`)

The OpenRouter backend is an external collaborator; its replies are oracle
parameters.  Everything the service does to a reply is embedded. -/

/-- `LLMService.analyze_paper` lines 105-108: markdown code-fence
stripping.  `content.split(sep)[i]` is total here because the split is
guarded by `sep in content`. -/
def stripCodeFences (content : String) : String :=
  if pyIn "```json" content then
    (pySplit ((pySplit content "```json").getD 1 "") "```").headD ""
  else if pyIn "```" content then
    (pySplit ((pySplit content "```").getD 1 "") "```").headD ""
  else content

/-- `content = response.choices[0].message.content or "\x7b\x7d"` followed
by fence stripping: the text actually handed to `json.loads`. -/
def effectiveContent (reply : String) : String :=
  stripCodeFences (if reply = "" then "\x7b\x7d" else reply)

/-- `data.get(k, default)` on the dict produced by `json.loads`
(such dicts have unique keys, so first-match lookup is exact). -/
def pyDictGet (data : List (String × JVal)) (k : String) (dflt : JVal) : JVal :=
  ((data.find? (fun f => f.1 = k)).map Prod.snd).getD dflt

/-- Pydantic validation of a `str` field value; failure is a
`pydantic.ValidationError` escaping the model constructor. -/
def vStr : JVal → Except String String
  | .str s => .ok s
  | _ => .error "ValidationError"

def vList {α : Type} (f : JVal → Except String α) :
    List JVal → Except String (List α)
  | [] => .ok []
  | v :: vs => do
    let a ← f v
    let tl ← vList f vs
    .ok (a :: tl)

/-- Pydantic validation of a `List[str]` field value. -/
def vStrList : JVal → Except String (List String)
  | .arr items => vList vStr items
  | _ => .error "ValidationError"

/-- Pydantic validation of an `Optional[str]` field value. -/
def vOptStr : JVal → Except String (Option String)
  | .null => .ok none
  | .str s => .ok (some s)
  | _ => .error "ValidationError"

/-- Pydantic validation of an `Optional[float]` field value (JSON ints
coerce to float; both are `JVal.num` here). -/
def vOptNum : JVal → Except String (Option ℚ)
  | .null => .ok none
  | .num q => .ok (some q)
  | _ => .error "ValidationError"

/-- `AIAnalysis(summary=data.get("summary", ""), ...)` (llm_service.py
lines 111-118): the `data.get` defaults, then pydantic field validation
at model construction.  A `ValidationError` is NOT among the exception
types the surrounding `except` clause catches, so it propagates out of
`analyze_paper`. -/
def buildAnalysis (data : List (String × JVal)) (now : DateTime) :
    Except String AIAnalysis := do
  let summary ← vStr (pyDictGet data "summary" (.str ""))
  let key_findings ← vStrList (pyDictGet data "key_findings" (.arr []))
  let methodology ← vOptStr (pyDictGet data "methodology" .null)
  let strengths ← vStrList (pyDictGet data "strengths" (.arr []))
  let limitations ← vStrList (pyDictGet data "limitations" (.arr []))
  let relevance_score ← vOptNum (pyDictGet data "relevance_score" .null)
  .ok ⟨summary, key_findings, methodology, strengths, limitations,
    relevance_score, now⟩

/-- `LLMService.analyze_paper`, reply post-processing (lines 100-121).
`loads` is `json.loads` on the stripped text, an external library call
modelled up to its output structure (`none` = `json.JSONDecodeError`).
The `try` catches only `(json.JSONDecodeError, KeyError)` — and
`dict.get` never raises `KeyError` — so: a decode failure falls back to
`AIAnalysis(summary=content[:500])`; a JSON value that is not an object
makes `data.get` raise `AttributeError`, which propagates; an object
with ill-typed field values raises `pydantic.ValidationError`, which
propagates.  `.error` is an exception escaping `analyze_paper`. -/
def analyzePaperResult (loads : String → Option JVal) (reply : String)
    (now : DateTime) : Except String AIAnalysis :=
  let content := effectiveContent reply
  match loads content with
  | none => .ok ⟨pyTake content 500, [], none, [], [], none, now⟩
  | some (.obj data) => buildAnalysis data now
  | some _ => .error "AttributeError" 

/-- What the streaming backend does on one call: the sequence of
`chunk.choices[0].delta.content` values it produces, and—if it raises,
either at stream creation (`deltas = []`) or mid-iteration—the exception
text (raised after the listed chunks). -/
structure StreamOutcome where
  deltas : List (Option String)
  failure : Option String
deriving DecidableEq, Repr

/-- `LLMService.chat_with_context` (lines 123-170): builds the system
prompt from the truncated paper text, streams the chunks (`if content:`
drops `None` and empty deltas), and converts any exception into one final
`"Error: ..."` fragment instead of raising. -/
def chatWithContext (paper_text : String) (messages : List (String × String))
    (model : Option String) (outcome : StreamOutcome) : List String :=
  let truncated_text := pyTake paper_text 50000
  let system_prompt :=
    "You are a research assistant helping a user understand an academic paper. "
      ++ "You must answer based ONLY on the provided paper content. "
      ++ "If the answer cannot be found in the paper, say so clearly. "
      ++ "Paper content:\n" ++ truncated_text ++ "\n\nCurrent conversation:"
  let _full_messages := ("system", system_prompt) :: messages
  let _selected_model := model
  let chunks := outcome.deltas.filterMap (fun c =>
    match c with
    | some str => if str = "" then none else some str
    | none => none)
  match outcome.failure with
  | some e => chunks ++ ["Error: " ++ e]
  | none => chunks

/-! ## Chat routes (`backend/app/api/routes/chat.py`) -/

inductive SSEvent where
  | message (data : String) : SSEvent
  | errorEv (data : String) : SSEvent
  | done : SSEvent
deriving DecidableEq, Repr

/-- `chat_event_generator` (lines 18-58): emits the SSE events and
performs the chat-history writes.  `t1`/`t2` are the two
`datetime.utcnow()` stamps. -/
def chatEventGenerator (s : DataStore) (arxiv_id user_message : String)
    (model : Option String) (outcome : StreamOutcome) (t1 t2 : DateTime) :
    List SSEvent × DataStore :=
  match getPaper s arxiv_id with
  | none => ([.errorEv "Paper not found"], s)
  | some paper =>
    if !(pyTruthyStr paper.extracted_text) then
      ([.errorEv "Paper text not extracted. Please process the paper first."], s)
    else
      let messages :=
        ((paper.chat_history.drop (paper.chat_history.length - 10)).map
          (fun m => (m.role, m.content))) ++ [("user", user_message)]
      let s1 := (addChatMessage s arxiv_id ⟨"user", user_message, t1⟩ t1).2
      let chunks := chatWithContext (paper.extracted_text.getD "") messages model outcome
      let response_text := chunks.foldl (fun acc c => acc ++ c) ""
      let s2 := (addChatMessage s1 arxiv_id ⟨"assistant", response_text, t2⟩ t2).2
      (chunks.map SSEvent.message ++ [.done], s2)

/-- `chat_with_paper` (lines 61-80): the checks performed before any
streaming starts.  `.ok` means an `EventSourceResponse` is returned. -/
def chatWithPaperRoute (s : DataStore) (arxiv_id : String) :
    Except (Nat × String) Unit :=
  match getPaper s arxiv_id with
  | none => .error (404, "Paper not found")
  | some paper =>
    if !(pyTruthyStr paper.extracted_text) then
      .error (400, "Paper text not extracted. Please process the paper first.")
    else
      .ok ()

/-- `generate_paper_summary` (lines 106-139).  `analyze` is the
generation backend (`llm_service.analyze_paper` seen as reply → result);
an exception from it propagates to the framework as a 500. -/
def generateSummaryRoute (s : DataStore) (arxiv_id : String)
    (analyze : String → String → Option String → Except String AIAnalysis)
    (now : DateTime) : Except (Nat × String) (AIAnalysis × DataStore) :=
  match getPaper s arxiv_id with
  | none => .error (404, "Paper not found")
  | some paper =>
    if !(pyTruthyStr paper.extracted_text) then
      .error (400, "Paper text not extracted. Please process the paper first.")
    else
      match analyze paper.metadata.title paper.metadata.abstract paper.extracted_text with
      | .error e => .error (500, e)
      | .ok analysis =>
        let s1 := (setAiAnalysis s arxiv_id analysis now).2
        .ok (analysis, s1)

/-! ## Process route (`backend/app/api/routes/papers.py`, lines 179-240) -/

structure FetchTally where
  found : Nat
  downloaded : Nat
  saved : Nat
deriving DecidableEq, Repr

/-- One iteration of the `_fetch_category` loop (lines 90-107): build the
`Paper`, try the download, record the path on success, hand to `add`. -/
def fetchStep (download : PaperMetadata → Option String) (now : DateTime)
    (acc : Nat × Nat × DataStore) (metadata : PaperMetadata) :
    Nat × Nat × DataStore :=
  let (downloaded, saved, store) := acc
  let paper := newPaper metadata now
  let (paper, downloaded) := match download metadata with
    | some path => ({ paper with pdf_path := some path }, downloaded + 1)
    | none => (paper, downloaded)
  let res := addPaper store paper
  (downloaded, (if res.1 then saved + 1 else saved), res.2)

/-- `SchedulerService._fetch_category` (lines 82-113).  `papers_data` is
what `arxiv_client.fetch_by_category` returned; `download` is
`pdf_service.download_pdf`, which never raises (every exception inside it
degrades to `None`, `pdf_service.py` lines 72-77). -/
def fetchCategory (s : DataStore) (papers_data : List PaperMetadata)
    (download : PaperMetadata → Option String) (now : DateTime) :
    FetchTally × DataStore :=
  let r := papers_data.foldl (fetchStep download now) (0, 0, s)
  ({ found := papers_data.length, downloaded := r.1, saved := r.2.1 }, r.2.2)

/-- `SchedulerService.fetch_all_categories` (lines 63-80): each category is
fetched inside its own `try`; an exception is recorded as that category's
result and the loop continues. -/
def fetchAllCategories (s : DataStore) (categories : List String)
    (fetchCat : String → DataStore → Except String (FetchTally × DataStore)) :
    List (String × Except String FetchTally) × DataStore :=
  categories.foldl (fun acc category =>
    let (results, store) := acc
    match fetchCat category store with
    | .ok (tally, store') => (results ++ [(category, .ok tally)], store')
    | .error e => (results ++ [(category, .error e)], store)) ([], s)

structure ProcessTally where
  processed : Nat
  failed : Nat
  skipped : Nat
deriving DecidableEq, Repr

/-- Lines 132-137 of the loop: run OCR only when text is absent; persist
non-empty text.  `.error` is an exception escaping to the per-paper
handler.  (`paper` aliases the cached object, so the in-place
`set_extracted_text` mutation is visible through the local variable.) -/
def processOcrTry (ocr : Paper → Except String (Option String))
    (now : DateTime) (store : DataStore) (paper : Paper) :
    Except String (Paper × DataStore) :=
  if !(pyTruthyStr paper.extracted_text) then
    match ocr paper with
    | .error e => .error e
    | .ok t =>
      if pyTruthyStr t then
        let store1 := (setExtractedText store paper.metadata.arxiv_id
          (t.getD "") now).2
        .ok ({ paper with extracted_text := t, updated_at := some now }, store1)
      else .ok (paper, store)
  else .ok (paper, store)

/-- One iteration of the `process_all_papers` loop (lines 126-151):
skip papers without a PDF; otherwise run OCR (only when text is absent)
and analysis inside one `try`, any exception incrementing `failed`. -/
def processStep (ocr : Paper → Except String (Option String))
    (analyze : String → String → Option String → Except String AIAnalysis)
    (now : DateTime) (acc : ProcessTally × DataStore) (paper : Paper) :
    ProcessTally × DataStore :=
  let (tally, store) := acc
  if !(pyTruthyStr paper.pdf_path) then
    ({ tally with skipped := tally.skipped + 1 }, store)
  else
    match processOcrTry ocr now store paper with
    | .error _ => ({ tally with failed := tally.failed + 1 }, store)
    | .ok (paper, store) =>
      match analyze paper.metadata.title paper.metadata.abstract
          paper.extracted_text with
      | .error _ => ({ tally with failed := tally.failed + 1 }, store)
      | .ok analysis =>
        let store := (setAiAnalysis store paper.metadata.arxiv_id analysis now).2
        let store := (setProcessed store paper.metadata.arxiv_id true now).2
        ({ tally with processed := tally.processed + 1 }, store)

/-- `SchedulerService.process_all_papers` (lines 115-153).  The selection
is `list_papers(processed=False)` with its default `limit=50, offset=0`.
Each paper is processed inside its own `try`: an exception from the OCR
call or the (properly awaited) analysis call increments `failed` and the
loop continues.  `set_extracted_text` mutates the cached object `paper`
aliases, so the subsequent analysis call sees the new text. -/
def processAllPapers (s : DataStore)
    (ocr : Paper → Except String (Option String))
    (analyze : String → String → Option String → Except String AIAnalysis)
    (now : DateTime) : Option (ProcessTally × DataStore) := do
  let papers ← listPapers s.papers_cache none none none (some false) none 50 0
  pure (papers.foldl (processStep ocr analyze now) (⟨0, 0, 0⟩, s))

/-! ## Concrete sample data (used by witnesses and counterexamples) -/

def demoDT : DateTime :=
  { year := 2024, month := 1, day := 10, hour := 0, minute := 0, second := 0,
    usec := 0 }

def demoDT2 : DateTime :=
  { year := 2024, month := 1, day := 20, hour := 12, minute := 30, second := 5,
    usec := 250000 }

def demoDT3 : DateTime :=
  { year := 2024, month := 1, day := 15, hour := 9, minute := 0, second := 0,
    usec := 0 }

def demoMeta (id : String) (d : DateTime) : PaperMetadata :=
  { arxiv_id := id, title := "Demo paper", authors := [⟨"Ada Lovelace", none⟩],
    abstract := "An abstract about agents.", published_date := d,
    updated_date := none, pdf_url := "http://example.org/a.pdf",
    primary_category := "cs.AI", categories := ["cs.AI"], comment := none,
    journal_ref := none, doi := none }

def demoPaper : Paper := newPaper (demoMeta "2401.00001" demoDT) demoDT

def demoPaperTexted : Paper :=
  { newPaper (demoMeta "2401.00002" demoDT2) demoDT2 with
      pdf_path := some "/data/papers/cs.AI/2024-01-20/2401.00002.pdf"
      extracted_text := some "Full text of the paper."
      chat_history := [⟨"user", "What is this paper about?", demoDT2⟩,
        ⟨"assistant", "It is about agents.", demoDT2⟩]
      ai_analysis := some ⟨"A summary.", ["finding"], some "methods", ["strong"],
        ["limited"], some (85 : ℚ), demoDT2⟩ }

def demoStore : DataStore :=
  { papers_cache := [("2401.00001", demoPaper)],
    papers_file := [("2401.00001", demoPaper.toJson)] }

def demoStoreTexted : DataStore :=
  { papers_cache := [("2401.00002", demoPaperTexted)],
    papers_file := [("2401.00002", demoPaperTexted.toJson)] }

/-- A persisted file holding one valid record and one record whose shape
fails validation. -/
def demoBadFile : List (String × JVal) :=
  [("2401.00001", demoPaper.toJson), ("bad", JVal.num 3)]

/-- A 501-character non-JSON model reply. -/
def longReply : String := String.mk (List.replicate 501 'a')

/-- A reply consisting only of two markdown fences with nothing between. -/
def fencedEmptyReply : String := "``````"

/-- A reply whose fenced body is a JSON array, not an object. -/
def fencedArrayReply : String := "```json\n[1, 2]\n```"

/-- A `json.loads` oracle for replies that are not valid JSON. -/
def loadsNone : String → Option JVal := fun _ => none

/-- The parsed object of a well-formed structured reply. -/
def demoAnalysisJson : List (String × JVal) :=
  [("summary", .str "Parsed summary."), ("key_findings", .arr [.str "f1", .str "f2"]),
   ("methodology", .str "methods"), ("strengths", .arr [.str "s1"]),
   ("limitations", .arr [.str "l1"]), ("relevance_score", .num 70)]

/-- A `json.loads` oracle for a reply parsing to that object. -/
def loadsObj : String → Option JVal := fun _ => some (.obj demoAnalysisJson)

/-- A `json.loads` oracle for a reply parsing to a JSON array. -/
def loadsArr : String → Option JVal := fun _ => some (.arr [.num 1, .num 2])

/-- A `json.loads` oracle for a reply parsing to an object whose
`summary` value is a number, not a string. -/
def loadsBadObj : String → Option JVal := fun _ => some (.obj [("summary", .num 5)])

def demoMetaA : PaperMetadata := demoMeta "2401.00011" demoDT
def demoMetaB : PaperMetadata := demoMeta "2401.00012" demoDT3
def demoMetaC : PaperMetadata := demoMeta "2401.00013" demoDT2

/-- A download backend that fails (returns `None`) exactly on the second
of the three demo targets. -/
def demoDownload : PaperMetadata → Option String := fun m =>
  if m.arxiv_id = "2401.00012" then none
  else some ("/data/papers/cs.AI/" ++ m.arxiv_id ++ ".pdf")

/-- An analysis backend whose call raises (e.g. the LLM is unreachable). -/
def failingAnalyze : String → String → Option String → Except String AIAnalysis :=
  fun _ _ _ => .error "llm down"

/-- An analysis backend that succeeds. -/
def okAnalyze : String → String → Option String → Except String AIAnalysis :=
  fun _ _ _ => .ok ⟨"ok", [], none, [], [], none, demoDT⟩

/-- An OCR backend that returns text. -/
def okOcr : Paper → Except String (Option String) :=
  fun _ => .ok (some "Extracted text.")

/-- A streaming outcome: some chunks (including a `None` delta and an empty
delta, both dropped), then a transport failure. -/
def demoOutcome : StreamOutcome :=
  ⟨[some "Hello ", none, some "", some "world"], some "connection reset"⟩

/-- Three papers added in the order 01-10, 01-20, 01-15 (the spec's sort
example). -/
def demoCache3 : List (String × Paper) :=
  [("2401.00011", newPaper demoMetaA demoDT),
   ("2401.00013", newPaper demoMetaC demoDT),
   ("2401.00012", newPaper demoMetaB demoDT)]

def demoPapers3 : List Paper := demoCache3.map Prod.snd

def emptyStore : DataStore := { papers_cache := [], papers_file := [] }

/-- A batch of three fetch targets (the middle one's download fails under
`demoDownload`). -/
def demoBatch : List PaperMetadata := [demoMetaA, demoMetaB, demoMetaC]

/-! # Lemmas -/

theorem digitVal?_ofNat (n : Nat) (h : n < 10) :
    digitVal? (Char.ofNat (48 + n)) = some n := by
  interval_cases n <;> decide

theorem readFixed_toChars (w : Nat) : ∀ (extra acc m : Nat) (rest : List Char),
    m < 10 ^ w →
    readFixed (w + extra) acc (toChars w m ++ rest)
      = readFixed extra (acc * 10 ^ w + m) rest := by
  induction w with
  | zero =>
    intro extra acc m rest hm
    interval_cases m
    simp [toChars]
  | succ w ih =>
    intro extra acc m rest hm
    have hdiv : m / 10 < 10 ^ w := by
      rw [Nat.div_lt_iff_lt_mul (by norm_num : (0:Nat) < 10)]
      calc m < 10 ^ (w + 1) := hm
        _ = 10 ^ w * 10 := by rw [pow_succ]
    have hshape : toChars (w + 1) m ++ rest
        = toChars w (m / 10) ++ (Char.ofNat (48 + m % 10) :: rest) := by
      simp [toChars]
    have hidx : w + 1 + extra = w + (extra + 1) := by omega
    rw [hshape, hidx, ih (extra + 1) acc (m / 10) _ hdiv]
    have hstep : readFixed (extra + 1) (acc * 10 ^ w + m / 10)
        (Char.ofNat (48 + m % 10) :: rest)
        = readFixed extra ((acc * 10 ^ w + m / 10) * 10 + m % 10) rest := by
      rw [readFixed, digitVal?_ofNat (m % 10) (Nat.mod_lt m (by norm_num))]
    rw [hstep]
    congr 1
    have hpow : acc * 10 ^ (w + 1) = acc * 10 ^ w * 10 := by ring
    rw [hpow]
    omega

theorem readFixed4_fin (m : Fin 10000) (rest : List Char) :
    readFixed 4 0 (toChars 4 m.val ++ rest) = some (m.val, rest) := by
  have := readFixed_toChars 4 0 0 m.val rest (by exact_mod_cast m.isLt)
  simpa using this

theorem readFixed2_fin (m : Fin 100) (rest : List Char) :
    readFixed 2 0 (toChars 2 m.val ++ rest) = some (m.val, rest) := by
  have := readFixed_toChars 2 0 0 m.val rest (by exact_mod_cast m.isLt)
  simpa using this

theorem readFixed2_fin_nil (m : Fin 100) :
    readFixed 2 0 (toChars 2 m.val) = some (m.val, []) := by
  have := readFixed2_fin m []
  simpa using this

theorem readFixed6_fin_nil (m : Fin 1000000) :
    readFixed 6 0 (toChars 6 m.val) = some (m.val, []) := by
  have h6 := readFixed_toChars 6 0 0 m.val [] (by exact_mod_cast m.isLt)
  simpa using h6

theorem expectChar_cons (c : Char) (cs : List Char) :
    expectChar c (c :: cs) = some cs := by
  simp [expectChar]

set_option maxHeartbeats 1000000 in
theorem parse_dtToIsoChars (d : DateTime) :
    parseIsoChars (dtToIsoChars d) = some d := by
  obtain ⟨y, mo, da, h, mi, s, us⟩ := d
  by_cases hus : us.val = 0
  · simp only [dtToIsoChars, hus, if_pos rfl]
    simp only [List.append_assoc, List.append_nil, List.cons_append]
    rw [parseIsoChars]
    rw [readFixed4_fin]
    simp only [Option.bind_eq_bind, Option.some_bind, expectChar_cons]
    rw [readFixed2_fin]
    simp only [Option.some_bind, expectChar_cons]
    rw [readFixed2_fin]
    simp only [Option.some_bind]
    rw [readFixed2_fin]
    simp only [Option.some_bind, expectChar_cons]
    rw [readFixed2_fin]
    simp only [Option.some_bind, expectChar_cons, if_true, List.append_nil]
    rw [readFixed2_fin_nil]
    simp only [Option.some_bind]
    simp only [mkDateTime]
    rw [dif_pos ⟨y.isLt, mo.isLt, da.isLt, h.isLt, mi.isLt, s.isLt, by norm_num⟩]
    obtain ⟨usv, husv⟩ := us
    simp only [Fin.val_mk] at hus
    subst hus
    rfl
  · simp only [dtToIsoChars, hus, if_neg hus]
    simp only [List.append_assoc, List.cons_append]
    rw [parseIsoChars]
    rw [readFixed4_fin]
    simp only [Option.bind_eq_bind, Option.some_bind, expectChar_cons]
    rw [readFixed2_fin]
    simp only [Option.some_bind, expectChar_cons]
    rw [readFixed2_fin]
    simp only [Option.some_bind]
    rw [readFixed2_fin]
    simp only [Option.some_bind, expectChar_cons]
    rw [readFixed2_fin]
    simp only [Option.some_bind, expectChar_cons]
    rw [readFixed2_fin]
    simp only [Option.some_bind]
    simp only [if_false]
    rw [readFixed6_fin_nil]
    simp only [Option.some_bind]
    simp only [mkDateTime]
    rw [dif_pos ⟨y.isLt, mo.isLt, da.isLt, h.isLt, mi.isLt, s.isLt, us.isLt⟩]

theorem parse_dtToIso (d : DateTime) : parseIsoDT (dtToIso d) = some d :=
  parse_dtToIsoChars d

@[simp]
theorem asStr_str (s : String) : asStr (.str s) = some s := rfl

@[simp]
theorem asBool_bool (b : Bool) : asBool (.bool b) = some b := rfl

@[simp]
theorem asOptStr_jStrOpt (o : Option String) : asOptStr (jStrOpt o) = some o := by
  cases o <;> rfl

@[simp]
theorem asOptNum_jNumOpt (o : Option ℚ) : asOptNum (jNumOpt o) = some o := by
  cases o <;> rfl

@[simp]
theorem asDT_jDT (d : DateTime) : asDT (jDT d) = some d := by
  simp [asDT, jDT, parse_dtToIso]

@[simp]
theorem asOptDT_jDTOpt (o : Option DateTime) : asOptDT (jDTOpt o) = some o := by
  cases o <;> simp [asOptDT, jDTOpt, jDT, parse_dtToIso]

theorem decodeList_map_roundtrip {α : Type} (f : α → JVal) (g : JVal → Option α)
    (h : ∀ a, g (f a) = some a) (l : List α) : decodeList g (l.map f) = some l := by
  induction l with
  | nil => rfl
  | cons x xs ih => simp [decodeList, h, ih]

@[simp]
theorem asStrList_jStrList (l : List String) : asStrList (jStrList l) = some l := by
  simp [asStrList, jStrList]
  exact decodeList_map_roundtrip JVal.str asStr (fun s => rfl) l

@[simp]
theorem author_roundtrip (a : Author) :
    Author.fromJson? (Author.toJson a) = some a := by
  obtain ⟨n, i⟩ := a
  simp [Author.fromJson?, Author.toJson, jGet, List.find?_cons]

@[simp]
theorem metadata_roundtrip (m : PaperMetadata) :
    PaperMetadata.fromJson? (PaperMetadata.toJson m) = some m := by
  obtain ⟨a, b, c, d, e, f, g, h, i, j, k, l⟩ := m
  simp [PaperMetadata.fromJson?, PaperMetadata.toJson, jGet, List.find?_cons,
    decodeList_map_roundtrip Author.toJson Author.fromJson? author_roundtrip]

@[simp]
theorem analysis_roundtrip (a : AIAnalysis) :
    AIAnalysis.fromJson? (AIAnalysis.toJson a) = some a := by
  obtain ⟨x1, x2, x3, x4, x5, x6, x7⟩ := a
  simp [AIAnalysis.fromJson?, AIAnalysis.toJson, jGet, List.find?_cons]

@[simp]
theorem chatMessage_roundtrip (c : ChatMessage) :
    ChatMessage.fromJson? (ChatMessage.toJson c) = some c := by
  obtain ⟨x1, x2, x3⟩ := c
  simp [ChatMessage.fromJson?, ChatMessage.toJson, jGet, List.find?_cons]

@[simp]
theorem paper_roundtrip (p : Paper) : Paper.fromJson? (Paper.toJson p) = some p := by
  obtain ⟨m, x1, x2, ai, ch, x3, x4, x5⟩ := p
  cases ai <;>
    simp [Paper.fromJson?, Paper.toJson, jGet, List.find?_cons,
      AIAnalysis.toJson, AIAnalysis.fromJson?,
      decodeList_map_roundtrip ChatMessage.toJson ChatMessage.fromJson?
        chatMessage_roundtrip]

theorem loadLoop_roundtrip (cache : List (String × Paper)) :
    loadLoop (cache.map (fun kv => (kv.1, kv.2.toJson))) = some cache := by
  induction cache with
  | nil => rfl
  | cons kv rest ih => simp [loadLoop, ih]

theorem dictGet_dictUpdate_self (cache : List (String × Paper)) (k : String)
    (g : Paper → Paper) :
    dictGet (dictUpdate cache k g) k = (dictGet cache k).map g := by
  induction cache with
  | nil => rfl
  | cons kv rest ih =>
    by_cases h : kv.1 = k
    · simp [dictGet, dictUpdate, List.find?_cons, h]
    · have hcons : dictUpdate (kv :: rest) k g = kv :: dictUpdate rest k g := by
        simp [dictUpdate, if_neg h]
      rw [hcons]
      unfold dictGet
      rw [List.find?_cons, List.find?_cons]
      simp only [decide_eq_false h]
      exact ih

theorem take_drop_partition {α : Type} (l : List α) (o m n : Nat) :
    (l.drop o).take m ++ (l.drop (o + m)).take n = (l.drop o).take (m + n) := by
  rw [List.take_add]
  congr 1
  rw [← List.drop_drop]

theorem loadLoop_none_of_bad (file : List (String × JVal))
    (h : ∃ kv ∈ file, Paper.fromJson? kv.2 = none) : loadLoop file = none := by
  induction file with
  | nil => simp at h
  | cons kv rest ih =>
    obtain ⟨bad, hmem, hbad⟩ := h
    rcases List.mem_cons.mp hmem with heq | hmem'
    · subst heq
      obtain ⟨k, v⟩ := bad
      simp only [loadLoop]
      simp [hbad]
    · obtain ⟨k, v⟩ := kv
      simp only [loadLoop]
      cases hv : Paper.fromJson? v with
      | none => rfl
      | some p => simp [ih ⟨bad, hmem', hbad⟩]

theorem loadLoop_some_of_good (file : List (String × JVal))
    (h : ∀ kv ∈ file, Paper.fromJson? kv.2 ≠ none) :
    loadLoop file
      = some (file.filterMap (fun kv => (Paper.fromJson? kv.2).map
          (fun p => (kv.1, p)))) := by
  induction file with
  | nil => rfl
  | cons kv rest ih =>
    obtain ⟨k, v⟩ := kv
    have hk := h (k, v) (List.mem_cons_self _ _)
    cases hv : Paper.fromJson? v with
    | none => exact absurd hv hk
    | some p =>
      have ih' := ih (fun kv hkv => h kv (List.mem_cons_of_mem _ hkv))
      simp only [loadLoop]
      simp [hv, ih']

theorem listPapers_eq_slice (cache : List (String × Paper))
    (category : Option String) (date_from date_to : Option String)
    (processed : Option Bool) (search : Option String) (limit offset : Nat)
    (l : List Paper)
    (h : filteredPapers cache category date_from date_to processed search = some l) :
    listPapers cache category date_from date_to processed search limit offset
      = some (((sortPapers l).drop offset).take limit) := by
  simp [listPapers, h, pySlice]

theorem dictGet_append_left (c l : List (String × Paper)) (k : String) (p : Paper)
    (h : dictGet c k = some p) : dictGet (c ++ l) k = some p := by
  simp only [dictGet, List.find?_append] at h ⊢
  cases hf : List.find? (fun kv => kv.1 = k) c with
  | none => simp [hf] at h
  | some kv =>
    simp [hf] at h
    simp [Option.or, hf, h]

theorem dictGet_append_fresh (c : List (String × Paper)) (k : String) (p : Paper)
    (h : dictContains c k = false) : dictGet (c ++ [(k, p)]) k = some p := by
  have hf : List.find? (fun kv : String × Paper => kv.1 = k) c = none := by
    rw [List.find?_eq_none]
    intro kv hkv hdec
    have hc : dictContains c k = true := by
      simp only [dictContains, List.any_eq_true]
      exact ⟨kv, hkv, hdec⟩
    rw [h] at hc
    exact Bool.false_ne_true hc
  simp [dictGet, List.find?_append, Option.or, hf, List.find?_cons]

theorem dictContains_append (c l : List (String × Paper)) (k : String) :
    dictContains (c ++ l) k = (dictContains c k || dictContains l k) := by
  simp [dictContains, List.any_append]

/-- One fetch iteration, characterized: the download result decides the
counter, freshness decides `saved`, and the store gets the paper (with
`pdf_path` := the download result) through `add`. -/
theorem fetchStep_eq (dl : PaperMetadata → Option String) (now : DateTime)
    (d0 s0 : Nat) (st : DataStore) (m : PaperMetadata) :
    fetchStep dl now (d0, s0, st) m
      = ((if (dl m).isSome then d0 + 1 else d0),
         (if dictContains st.papers_cache m.arxiv_id then s0 else s0 + 1),
         (addPaper st { newPaper m now with pdf_path := dl m }).2) := by
  cases hdl : dl m with
  | none =>
    by_cases hc : dictContains st.papers_cache m.arxiv_id
      <;> simp [fetchStep, hdl, addPaper, newPaper, hc]
  | some path =>
    by_cases hc : dictContains st.papers_cache m.arxiv_id
      <;> simp [fetchStep, hdl, addPaper, newPaper, hc]

theorem fetch_fold_downloaded (dl : PaperMetadata → Option String) (now : DateTime)
    (data : List PaperMetadata) : ∀ (d0 s0 : Nat) (st : DataStore),
    (data.foldl (fetchStep dl now) (d0, s0, st)).1
      = d0 + (data.filter (fun m => (dl m).isSome)).length := by
  induction data with
  | nil => simp
  | cons m rest ih =>
    intro d0 s0 st
    rw [List.foldl_cons, fetchStep_eq]
    by_cases hdl : (dl m).isSome
      <;> simp [hdl, ih, List.filter_cons]
    omega

theorem fetch_fold_preserve (dl : PaperMetadata → Option String) (now : DateTime)
    (data : List PaperMetadata) : ∀ (d0 s0 : Nat) (st : DataStore) (k : String)
    (p : Paper), dictGet st.papers_cache k = some p →
    dictGet (data.foldl (fetchStep dl now) (d0, s0, st)).2.2.papers_cache k
      = some p := by
  induction data with
  | nil => intro d0 s0 st k p h; simpa using h
  | cons m rest ih =>
    intro d0 s0 st k p h
    rw [List.foldl_cons, fetchStep_eq]
    apply ih
    by_cases hc : dictContains st.papers_cache m.arxiv_id
    · simpa [addPaper, newPaper, hc] using h
    · simp only [addPaper, newPaper, hc, Bool.false_eq_true, if_false, saveCache]
      exact dictGet_append_left _ _ _ _ h

theorem fetch_fold_lookup (dl : PaperMetadata → Option String) (now : DateTime)
    (data : List PaperMetadata) : ∀ (d0 s0 : Nat) (st : DataStore),
    (∀ m ∈ data, dictContains st.papers_cache m.arxiv_id = false) →
    (data.map (fun m => m.arxiv_id)).Nodup →
    (∀ m ∈ data,
      dictGet (data.foldl (fetchStep dl now) (d0, s0, st)).2.2.papers_cache
          m.arxiv_id
        = some { newPaper m now with pdf_path := dl m })
    ∧ (data.foldl (fetchStep dl now) (d0, s0, st)).2.1 = s0 + data.length := by
  induction data with
  | nil => intro d0 s0 st _ _; simp
  | cons m rest ih =>
    intro d0 s0 st hfresh hnodup
    have hm : dictContains st.papers_cache m.arxiv_id = false :=
      hfresh m (List.mem_cons_self _ _)
    have hcache : (fetchStep dl now (d0, s0, st) m).2.2.papers_cache
        = st.papers_cache ++ [(m.arxiv_id, { newPaper m now with pdf_path := dl m })] := by
      rw [fetchStep_eq]
      simp [addPaper, newPaper, hm, saveCache]
    have hnodup2 : (m.arxiv_id :: rest.map (fun x => x.arxiv_id)).Nodup := by
      simpa using hnodup
    have hnd := List.nodup_cons.mp hnodup2
    have hfresh' : ∀ m2 ∈ rest,
        dictContains (fetchStep dl now (d0, s0, st) m).2.2.papers_cache
          m2.arxiv_id = false := by
      intro m2 hm2
      have h1 := hfresh m2 (List.mem_cons_of_mem _ hm2)
      have h2 : m2.arxiv_id ≠ m.arxiv_id := by
        intro he
        exact hnd.1 (by simpa [he] using List.mem_map_of_mem (fun x => x.arxiv_id) hm2)
      rw [hcache, dictContains_append, h1]
      simp [dictContains, Ne.symm h2]
    rw [List.foldl_cons]
    obtain ⟨hstep1, hstep2⟩ :=
      ih (fetchStep dl now (d0, s0, st) m).1 (fetchStep dl now (d0, s0, st) m).2.1
        (fetchStep dl now (d0, s0, st) m).2.2 hfresh' hnd.2
    constructor
    · intro m2 hm2
      rcases List.mem_cons.mp hm2 with heq | hm2'
      · subst heq
        have hget : dictGet (fetchStep dl now (d0, s0, st) m2).2.2.papers_cache
            m2.arxiv_id = some { newPaper m2 now with pdf_path := dl m2 } := by
          rw [hcache]
          exact dictGet_append_fresh _ _ _ hm
        exact fetch_fold_preserve dl now rest _ _ _ _ _ hget
      · exact hstep1 m2 hm2'
    · rw [fetchStep_eq] at hstep2 ⊢
      simp [hm] at hstep2 ⊢
      omega

theorem fetchAllCategories_no_abort (s : DataStore) (cats : List String)
    (fetchCat : String → DataStore → Except String (FetchTally × DataStore)) :
    ((fetchAllCategories s cats fetchCat).1).map Prod.fst = cats := by
  suffices h : ∀ (acc : List (String × Except String FetchTally)) (st : DataStore),
      ((cats.foldl (fun acc category =>
        let (results, store) := acc
        match fetchCat category store with
        | .ok (tally, store') => (results ++ [(category, .ok tally)], store')
        | .error e => (results ++ [(category, .error e)], store))
        (acc, st)).1).map Prod.fst = acc.map Prod.fst ++ cats by
    simpa [fetchAllCategories] using h [] s
  induction cats with
  | nil => intro acc st; simp
  | cons c rest ih =>
    intro acc st
    rw [List.foldl_cons]
    cases hf : fetchCat c st with
    | ok pr => obtain ⟨tally, store'⟩ := pr; simp [hf, ih]
    | error e => simp [hf, ih]

/-- One processing iteration moves exactly one of the three counters. -/
theorem processStep_sum (ocr : Paper → Except String (Option String))
    (analyze : String → String → Option String → Except String AIAnalysis)
    (now : DateTime) (acc : ProcessTally × DataStore) (paper : Paper) :
    (processStep ocr analyze now acc paper).1.processed
        + (processStep ocr analyze now acc paper).1.failed
        + (processStep ocr analyze now acc paper).1.skipped
      = acc.1.processed + acc.1.failed + acc.1.skipped + 1 := by
  obtain ⟨t, st⟩ := acc
  by_cases hp : pyTruthyStr paper.pdf_path
  · simp only [processStep, hp, Bool.not_true, Bool.false_eq_true, if_false]
    cases hoc : processOcrTry ocr now st paper with
    | error e => simp [hoc]; omega
    | ok pr =>
      obtain ⟨paper2, st2⟩ := pr
      cases ha : analyze paper2.metadata.title paper2.metadata.abstract
          paper2.extracted_text with
      | error e => simp [hoc, ha]; omega
      | ok an => simp [hoc, ha]; omega
  · simp only [processStep, hp]
    simp
    omega

theorem process_fold_sum (ocr : Paper → Except String (Option String))
    (analyze : String → String → Option String → Except String AIAnalysis)
    (now : DateTime) (papers : List Paper) : ∀ (acc : ProcessTally × DataStore),
    (papers.foldl (processStep ocr analyze now) acc).1.processed
        + (papers.foldl (processStep ocr analyze now) acc).1.failed
        + (papers.foldl (processStep ocr analyze now) acc).1.skipped
      = acc.1.processed + acc.1.failed + acc.1.skipped + papers.length := by
  induction papers with
  | nil => intro acc; simp
  | cons p rest ih =>
    intro acc
    rw [List.foldl_cons]
    rw [ih (processStep ocr analyze now acc p)]
    rw [processStep_sum]
    simp [List.length_cons]
    omega

theorem addChatMessage_cache (s : DataStore) (id : String) (m : ChatMessage)
    (now : DateTime) (p : Paper) (h : dictGet s.papers_cache id = some p) :
    (addChatMessage s id m now).2.papers_cache
      = dictUpdate s.papers_cache id (fun q =>
          { q with
              chat_history := q.chat_history ++ [m]
              updated_at := some now }) := by
  simp [addChatMessage, h, saveCache]

/-! # Claims -/

/-- C1: for every store state and paper, if the paper's identifier is
already a key of the store then `add_paper` returns `False` and leaves both
the in-memory mapping and the persisted file unchanged; if the identifier
is absent it returns `True`, inserts the paper under its identifier, and
persists the entire collection by a whole-file rewrite (the file becomes
the serialization of the whole new mapping). -/
theorem C1_add_paper (s : DataStore) (p : Paper) :
    (dictContains s.papers_cache p.metadata.arxiv_id = true →
      addPaper s p = (false, s)) ∧
    (dictContains s.papers_cache p.metadata.arxiv_id = false →
      addPaper s p =
        (true,
          { papers_cache := s.papers_cache ++ [(p.metadata.arxiv_id, p)],
            papers_file := (s.papers_cache ++ [(p.metadata.arxiv_id, p)]).map
              (fun kv => (kv.1, kv.2.toJson)) })) := by
  constructor <;> intro h <;> simp [addPaper, h, saveCache]

theorem C1_add_paper_witness :
    addPaper demoStore demoPaper = (false, demoStore) ∧
    addPaper demoStore demoPaperTexted =
      (true,
        { papers_cache := demoStore.papers_cache
            ++ [(demoPaperTexted.metadata.arxiv_id, demoPaperTexted)],
          papers_file := (demoStore.papers_cache
            ++ [(demoPaperTexted.metadata.arxiv_id, demoPaperTexted)]).map
              (fun kv => (kv.1, kv.2.toJson)) }) :=
  ⟨(C1_add_paper demoStore demoPaper).1 rfl,
   (C1_add_paper demoStore demoPaperTexted).2 rfl⟩

/-- C2: `list_papers` first filters, then stably sorts the surviving
papers by published date descending, and only then paginates:
`list(limit=L, offset=O)` is exactly the `O..O+L` slice of the full
date-descending-sorted filtered sequence, slices at consecutive offsets
concatenate to the contiguous larger slice (no overlap or gaps), and the
full sequence is pairwise date-descending. -/
theorem C2_list_pagination (cache : List (String × Paper))
    (category : Option String) (date_from date_to : Option String)
    (processed : Option Bool) (search : Option String) (L O L2 : Nat)
    (l : List Paper)
    (h : filteredPapers cache category date_from date_to processed search = some l) :
    listPapers cache category date_from date_to processed search L O
        = some (((sortPapers l).drop O).take L)
      ∧ ((sortPapers l).drop O).take L ++ ((sortPapers l).drop (O + L)).take L2
        = ((sortPapers l).drop O).take (L + L2)
      ∧ (sortPapers l).Pairwise dateDescRel := by
  refine ⟨listPapers_eq_slice cache category date_from date_to processed search
    L O l h, take_drop_partition (sortPapers l) O L L2, ?_⟩
  haveI : IsTotal Paper dateDescRel :=
    ⟨fun a b => Nat.le_total b.metadata.published_date.key
      a.metadata.published_date.key⟩
  haveI : IsTrans Paper dateDescRel :=
    ⟨fun _ _ _ hab hbc => le_trans hbc hab⟩
  exact List.sorted_insertionSort dateDescRel l

theorem C2_list_pagination_witness :
    (listPapers demoCache3 none none none none none 2 1
        = some (((sortPapers demoPapers3).drop 1).take 2)
      ∧ ((sortPapers demoPapers3).drop 1).take 2
          ++ ((sortPapers demoPapers3).drop (1 + 2)).take 5
        = ((sortPapers demoPapers3).drop 1).take (2 + 5)
      ∧ (sortPapers demoPapers3).Pairwise dateDescRel)
    ∧ listPapers demoCache3 none none none none none 50 0
        = some [newPaper demoMetaC demoDT, newPaper demoMetaB demoDT,
            newPaper demoMetaA demoDT] :=
  ⟨C2_list_pagination demoCache3 none none none none none 2 1 5 demoPapers3 rfl,
   by decide⟩

/-- C3: serializing the whole collection to the backing file and then
reloading (discarding in-memory state and re-reading the file) restores
every Paper record equal in all fields, including nested analysis and chat
history. -/
theorem C3_persist_reload_roundtrip (s : DataStore) :
    (reload (saveCache s)).papers_cache = s.papers_cache := by
  simp [reload, saveCache, loadCache, loadLoop_roundtrip]

/-- C4 counterexample: a file holding one validly-shaped record and one
invalid record loads as the EMPTY store — the valid record is discarded
too, contradicting the claimed per-record skip. -/
theorem C4_counterexample :
    loadCache demoBadFile = []
      ∧ loadCache demoBadFile ≠ [("2401.00001", demoPaper)] := by
  constructor
  · rfl
  · decide

/-- C4 (amended): initialization does not skip bad records individually:
the whole load runs in one `try`, so one record whose shape fails
validation aborts the load and degrades the store to empty (logged, not
crashed); only when every record validates are they all loaded. -/
theorem C4_load_all_or_nothing (file : List (String × JVal)) :
    ((∃ kv ∈ file, Paper.fromJson? kv.2 = none) → loadCache file = [])
    ∧ ((∀ kv ∈ file, Paper.fromJson? kv.2 ≠ none) →
        loadCache file = file.filterMap (fun kv => (Paper.fromJson? kv.2).map
          (fun p => (kv.1, p)))) := by
  constructor
  · intro h
    simp [loadCache, loadLoop_none_of_bad file h]
  · intro h
    simp [loadCache, loadLoop_some_of_good file h]

theorem C4_load_all_or_nothing_witness :
    loadCache demoBadFile = []
    ∧ loadCache [("2401.00001", demoPaper.toJson)]
        = [("2401.00001", demoPaper.toJson)].filterMap
            (fun kv => (Paper.fromJson? kv.2).map (fun p => (kv.1, p))) :=
  ⟨(C4_load_all_or_nothing demoBadFile).1
      ⟨("bad", JVal.num 3), List.mem_cons_of_mem _ (List.mem_cons_self _ _), rfl⟩,
   (C4_load_all_or_nothing [("2401.00001", demoPaper.toJson)]).2 (by decide)⟩

/-- C5 counterexample: `count_papers` does not implement the search (or
date-range) filters: on a one-paper store with a search string matching
nothing, the list filter semantics select zero papers while count still
returns 1. -/
theorem C5_counterexample :
    filteredPapers demoStore.papers_cache none none none none (some "quantum")
        = some []
      ∧ countPapers demoStore.papers_cache none none ≠ 0 := by
  constructor
  · decide
  · decide

/-- C5 (amended): `count_papers` supports only the category and processed
filters; for those two it has exactly `list_papers`' filter semantics
(count = length of the filtered, unpaginated selection when no date or
search filter is given). -/
theorem C5_count_matches_list_filters (cache : List (String × Paper))
    (category : Option String) (processed : Option Bool) :
    (filteredPapers cache category none none processed none).map List.length
      = some (countPapers cache category processed) := rfl

/-- C7: on a paper that exists but has no extracted text, chat and
summary fail with the 400 "not yet processed" condition, which differs
from the 404 not-found condition; the summary route's result does not
depend on the generation backend and the chat event generator emits only
the error event and leaves the store untouched for every backend — no
generation call is made. -/
theorem C7_chat_precondition (s : DataStore) (id : String) (p : Paper)
    (hget : getPaper s id = some p)
    (htext : pyTruthyStr p.extracted_text = false) :
    chatWithPaperRoute s id
        = .error (400, "Paper text not extracted. Please process the paper first.")
      ∧ (∀ analyze now, generateSummaryRoute s id analyze now
          = .error (400, "Paper text not extracted. Please process the paper first."))
      ∧ chatWithPaperRoute s id ≠ .error (404, "Paper not found")
      ∧ (∀ msg model outcome t1 t2,
          chatEventGenerator s id msg model outcome t1 t2
            = ([.errorEv "Paper text not extracted. Please process the paper first."],
                s)) := by
  have h1 : chatWithPaperRoute s id
      = .error (400, "Paper text not extracted. Please process the paper first.") := by
    simp [chatWithPaperRoute, hget, htext]
  refine ⟨h1, ?_, ?_, ?_⟩
  · intro analyze now
    simp [generateSummaryRoute, hget, htext]
  · rw [h1]
    simp
  · intro msg model outcome t1 t2
    simp [chatEventGenerator, hget, htext]

theorem C7_chat_precondition_witness :
    chatWithPaperRoute demoStore "2401.00001"
        = .error (400, "Paper text not extracted. Please process the paper first.")
    ∧ generateSummaryRoute demoStore "2401.00001" failingAnalyze demoDT
        = .error (400, "Paper text not extracted. Please process the paper first.")
    ∧ generateSummaryRoute demoStore "2401.00001" okAnalyze demoDT
        = generateSummaryRoute demoStore "2401.00001" failingAnalyze demoDT
    ∧ chatEventGenerator demoStore "2401.00001" "Hi" none demoOutcome demoDT demoDT3
        = ([.errorEv "Paper text not extracted. Please process the paper first."],
            demoStore) := by
  have h := C7_chat_precondition demoStore "2401.00001" demoPaper rfl rfl
  exact ⟨h.1, h.2.1 failingAnalyze demoDT,
    (h.2.1 okAnalyze demoDT).trans (h.2.1 failingAnalyze demoDT).symm,
    h.2.2.2 "Hi" none demoOutcome demoDT demoDT3⟩

set_option maxRecDepth 16384 in
/-- C8 counterexample: the original claim fails at three concrete
inputs.  A reply of two empty code fences strips to the empty string and
yields an EMPTY fallback summary; a 501-character unparseable reply
yields a fallback summary that is not the raw reply (truncated to 500
characters); and a reply whose fenced body parses as the JSON array
`[1, 2]` (not the expected structure) makes analysis generation RAISE
(`data.get` on a list raises `AttributeError`, which the handler does
not catch) instead of returning an `AIAnalysis`. -/
theorem C8_counterexample :
    analyzePaperResult loadsNone fencedEmptyReply demoDT
        = .ok ⟨"", [], none, [], [], none, demoDT⟩
    ∧ pyTake (effectiveContent longReply) 500 ≠ longReply
    ∧ analyzePaperResult loadsNone longReply demoDT
        = .ok ⟨pyTake (effectiveContent longReply) 500, [], none, [], [], none,
            demoDT⟩
    ∧ analyzePaperResult loadsArr fencedArrayReply demoDT
        = .error "AttributeError" := by
  refine ⟨rfl, by decide, rfl, rfl⟩

/-- C8 (amended): only a JSON-decoding failure of the delimiter-stripped
reply is handled: then analysis generation still returns an `AIAnalysis`
whose summary is the first 500 characters of the stripped reply —
non-empty whenever the stripped reply is non-empty — with every other
field at its default.  When the stripped reply parses as a JSON object
whose field values validate, the distinct fields all come from the
parsed structure.  But a reply parsing to a non-object JSON value raises
`AttributeError`, and an object with ill-typed field values raises
`pydantic.ValidationError`; neither is converted into a fallback
analysis — `analyze_paper` raises. -/
theorem C8_analysis_fallback (loads : String → Option JVal) (reply : String)
    (now : DateTime) :
    (loads (effectiveContent reply) = none →
      analyzePaperResult loads reply now
          = .ok ⟨pyTake (effectiveContent reply) 500, [], none, [], [], none, now⟩
        ∧ (effectiveContent reply ≠ "" →
            pyTake (effectiveContent reply) 500 ≠ ""))
    ∧ (∀ data su kf me st li rs,
        loads (effectiveContent reply) = some (.obj data) →
        vStr (pyDictGet data "summary" (.str "")) = .ok su →
        vStrList (pyDictGet data "key_findings" (.arr [])) = .ok kf →
        vOptStr (pyDictGet data "methodology" .null) = .ok me →
        vStrList (pyDictGet data "strengths" (.arr [])) = .ok st →
        vStrList (pyDictGet data "limitations" (.arr [])) = .ok li →
        vOptNum (pyDictGet data "relevance_score" .null) = .ok rs →
        analyzePaperResult loads reply now = .ok ⟨su, kf, me, st, li, rs, now⟩)
    ∧ (∀ v, loads (effectiveContent reply) = some v →
        (∀ data, v ≠ JVal.obj data) →
        analyzePaperResult loads reply now = .error "AttributeError")
    ∧ (∀ data e, loads (effectiveContent reply) = some (.obj data) →
        buildAnalysis data now = .error e →
        analyzePaperResult loads reply now = .error e) := by
  refine ⟨?_, ?_, ?_, ?_⟩
  · intro h
    constructor
    · simp [analyzePaperResult, h]
    · intro hne hcon
      apply hne
      have hdata0 : (effectiveContent reply).data.take 500 = [] := by
        have := congrArg String.data hcon
        simpa [pyTake] using this
      have hdata : (effectiveContent reply).data = [] := by
        rcases List.take_eq_nil_iff.mp hdata0 with h500 | hnil
        · exact absurd h500 (by norm_num)
        · exact hnil
      calc effectiveContent reply
          = String.mk (effectiveContent reply).data := rfl
        _ = "" := by rw [hdata]
  · intro data su kf me st li rs h hsu hkf hme hst hli hrs
    simp only [analyzePaperResult, h, buildAnalysis, hsu, hkf, hme, hst, hli, hrs]
    rfl
  · intro v h hv
    cases v with
    | obj data => exact absurd rfl (hv data)
    | null => simp [analyzePaperResult, h]
    | bool b => simp [analyzePaperResult, h]
    | num q => simp [analyzePaperResult, h]
    | str s => simp [analyzePaperResult, h]
    | arr items => simp [analyzePaperResult, h]
  · intro data e h he
    simp [analyzePaperResult, h, he]

set_option maxRecDepth 16384 in
theorem C8_analysis_fallback_witness :
    analyzePaperResult loadsNone longReply demoDT
        = .ok ⟨pyTake (effectiveContent longReply) 500, [], none, [], [], none,
            demoDT⟩
    ∧ pyTake (effectiveContent longReply) 500 ≠ ""
    ∧ analyzePaperResult loadsObj longReply demoDT
        = .ok ⟨"Parsed summary.", ["f1", "f2"], some "methods", ["s1"], ["l1"],
            some (70 : ℚ), demoDT⟩
    ∧ analyzePaperResult loadsArr fencedArrayReply demoDT
        = .error "AttributeError"
    ∧ analyzePaperResult loadsBadObj longReply demoDT
        = .error "ValidationError" := by
  have h1 := C8_analysis_fallback loadsNone longReply demoDT
  have h2 := C8_analysis_fallback loadsObj longReply demoDT
  have h3 := C8_analysis_fallback loadsArr fencedArrayReply demoDT
  have h4 := C8_analysis_fallback loadsBadObj longReply demoDT
  refine ⟨(h1.1 rfl).1, (h1.1 rfl).2 (by decide), ?_, ?_, ?_⟩
  · exact h2.2.1 demoAnalysisJson "Parsed summary." ["f1", "f2"] (some "methods")
      ["s1"] ["l1"] (some (70 : ℚ)) rfl rfl rfl rfl rfl rfl rfl
  · exact h3.2.2.1 (.arr [.num 1, .num 2]) rfl (fun _ hc => JVal.noConfusion hc)
  · exact h4.2.2.2 [("summary", JVal.num 5)] "ValidationError" rfl rfl

/-- C9: a failure on one paper or one category never aborts a batch.
For a fetch batch: the tally's `found` is the whole input, `downloaded`
counts exactly the successful downloads, every target is saved (under
fresh, pairwise-distinct identifiers), and each target ends up stored
with `pdf_path` equal to its own download result — a failed download
leaves `pdf_path` unset on that paper only.  For the all-categories
fetch, every category receives a result entry (error entries included).
For the processing batch, every selected paper is counted exactly once
across processed/failed/skipped. -/
theorem C9_batch_isolation (s : DataStore) (data : List PaperMetadata)
    (dl : PaperMetadata → Option String) (now : DateTime)
    (ocr : Paper → Except String (Option String))
    (analyze : String → String → Option String → Except String AIAnalysis)
    (cats : List String)
    (fetchCat : String → DataStore → Except String (FetchTally × DataStore))
    (hfresh : ∀ m ∈ data, dictContains s.papers_cache m.arxiv_id = false)
    (hnodup : (data.map (fun m => m.arxiv_id)).Nodup) :
    (fetchCategory s data dl now).1.found = data.length
    ∧ (fetchCategory s data dl now).1.downloaded
        = (data.filter (fun m => (dl m).isSome)).length
    ∧ (fetchCategory s data dl now).1.saved = data.length
    ∧ (∀ m ∈ data,
        dictGet (fetchCategory s data dl now).2.papers_cache m.arxiv_id
          = some { newPaper m now with pdf_path := dl m })
    ∧ ((fetchAllCategories s cats fetchCat).1).map Prod.fst = cats
    ∧ (∀ papers tally store',
        listPapers s.papers_cache none none none (some false) none 50 0
            = some papers →
        processAllPapers s ocr analyze now = some (tally, store') →
        tally.processed + tally.failed + tally.skipped = papers.length) := by
  obtain ⟨hlook, hsaved⟩ := fetch_fold_lookup dl now data 0 0 s hfresh hnodup
  refine ⟨rfl, ?_, ?_, ?_, fetchAllCategories_no_abort s cats fetchCat, ?_⟩
  · simpa [fetchCategory] using fetch_fold_downloaded dl now data 0 0 s
  · simpa [fetchCategory] using hsaved
  · intro m hm
    simpa [fetchCategory] using hlook m hm
  · intro papers tally store' hpl hproc
    simp only [processAllPapers, hpl, Option.bind_eq_bind, Option.some_bind,
      Option.pure_def] at hproc
    have hsum := process_fold_sum ocr analyze now papers
      (⟨0, 0, 0⟩, s)
    rw [Option.some_inj] at hproc
    rw [hproc] at hsum
    simpa using hsum

theorem C9_batch_isolation_witness :
    (fetchCategory emptyStore demoBatch demoDownload demoDT).1.found = 3
    ∧ (fetchCategory emptyStore demoBatch demoDownload demoDT).1.downloaded = 2
    ∧ (fetchCategory emptyStore demoBatch demoDownload demoDT).1.saved = 3
    ∧ dictGet (fetchCategory emptyStore demoBatch demoDownload demoDT).2.papers_cache
        "2401.00013"
        = some { newPaper demoMetaC demoDT with
            pdf_path := demoDownload demoMetaC }
    ∧ dictGet (fetchCategory emptyStore demoBatch demoDownload demoDT).2.papers_cache
        "2401.00012"
        = some { newPaper demoMetaB demoDT with pdf_path := none } := by
  have h := C9_batch_isolation emptyStore demoBatch demoDownload demoDT okOcr
    failingAnalyze [] (fun _ st => .error "offline") (by decide) (by decide)
  exact ⟨h.1, h.2.1, h.2.2.1, h.2.2.2.1 demoMetaC (by decide),
    h.2.2.2.1 demoMetaB (by decide)⟩

/-- C10: a transport or generation failure during streaming chat never
raises: the stream's final fragment is exactly `"Error: <detail>"`, and
the event generator appends the user message (before streaming) and then
an assistant message whose content is the accumulated stream text —
including the error fragment — to the paper's persisted chat history. -/
theorem C10_stream_error_capture (s : DataStore) (id : String) (p : Paper)
    (msg : String) (model : Option String) (outcome : StreamOutcome) (e : String)
    (t1 t2 : DateTime)
    (hget : getPaper s id = some p)
    (htext : pyTruthyStr p.extracted_text = true)
    (hfail : outcome.failure = some e) :
    (∀ ptext msgs, (chatWithContext ptext msgs model outcome).getLast?
        = some ("Error: " ++ e))
    ∧ (dictGet (chatEventGenerator s id msg model outcome t1 t2).2.papers_cache
          id).map Paper.chat_history
        = some (p.chat_history
            ++ [⟨"user", msg, t1⟩,
                ⟨"assistant",
                  (chatWithContext (p.extracted_text.getD "")
                    (((p.chat_history.drop (p.chat_history.length - 10)).map
                      (fun m => (m.role, m.content))) ++ [("user", msg)])
                    model outcome).foldl (fun acc c => acc ++ c) "", t2⟩]) := by
  have hget' : dictGet s.papers_cache id = some p := hget
  constructor
  · intro ptext msgs
    simp [chatWithContext, hfail, List.getLast?_concat]
  · have hadd1 := addChatMessage_cache s id ⟨"user", msg, t1⟩ t1 p hget'
    have hg1 : dictGet ((addChatMessage s id ⟨"user", msg, t1⟩ t1).2).papers_cache id
        = some { p with
            chat_history := p.chat_history ++ [⟨"user", msg, t1⟩]
            updated_at := some t1 } := by
      rw [hadd1, dictGet_dictUpdate_self, hget']
      simp
    simp only [chatEventGenerator, hget, htext, Bool.not_true, Bool.false_eq_true,
      if_false]
    rw [addChatMessage_cache _ _ _ t2 _ hg1, dictGet_dictUpdate_self, hg1]
    simp

theorem C10_stream_error_capture_witness :
    (chatWithContext "Full text of the paper." [] none demoOutcome).getLast?
        = some ("Error: connection reset")
    ∧ (dictGet (chatEventGenerator demoStoreTexted "2401.00002" "Hi" none
          demoOutcome demoDT demoDT3).2.papers_cache "2401.00002").map
        Paper.chat_history
        = some (demoPaperTexted.chat_history
            ++ [⟨"user", "Hi", demoDT⟩,
                ⟨"assistant",
                  (chatWithContext (demoPaperTexted.extracted_text.getD "")
                    (((demoPaperTexted.chat_history.drop
                        (demoPaperTexted.chat_history.length - 10)).map
                      (fun m => (m.role, m.content))) ++ [("user", "Hi")])
                    none demoOutcome).foldl (fun acc c => acc ++ c) "",
                  demoDT3⟩]) := by
  have h := C10_stream_error_capture demoStoreTexted "2401.00002" demoPaperTexted
    "Hi" none demoOutcome "connection reset" demoDT demoDT3 rfl rfl rfl
  exact ⟨h.1 "Full text of the paper." [], h.2⟩

end Pepper
